import Mathlib

/-!
# Bluetooth services handler (`setup/src/bt_srv.c`)

A shallow embedding of `bt_srv.c`: the three static advertising tables, the
`advertise` helper, the `connected` / `disconnected` connection callbacks and
`bt_srv_init` with its poll loop.

Modelling conventions.

* Calls into the Bluetooth host stack, the settings subsystem, the GATT
  service, mcumgr and the kernel are recorded, in program order, in
  `State.calls`; every recorded call carries the arguments the source passes
  and, where the source reads it, the value the callee returned.
* Values returned by the collaborators are inputs: the three checked setup
  stages take theirs from `Env`, `bt_le_adv_start` takes its from the poll
  tick that issues it.
* The connection callbacks run in the host stack context.  They write only
  the global `active_conn`, which one loop iteration reads exactly once, so an
  execution is described by a list of `Event`s: a whole loop iteration
  (`tick`) or one callback invocation.
* `int` return codes are `Int`, `u8_t` codes are `Nat`; the source only tests
  them against zero and passes them on.
-/

namespace BtSrv

/-! ## Data model -/

/-- Numeric values of the host-stack header constants the tables refer to.
The headers are not in this source tree, so the values are a parameter of the
model. -/
structure BtDefs where
  BT_DATA_FLAGS : Nat
  BT_DATA_UUID128_SOME : Nat
  BT_LE_AD_GENERAL : Nat
  BT_LE_AD_NO_BREDR : Nat
deriving DecidableEq, Repr

/-- The host stack record `struct bt_data`: an element type, the number of
data bytes and the data bytes. -/
structure bt_data where
  type : Nat
  data_len : Nat
  data : List Nat
deriving DecidableEq, Repr

/-- Modelled from the spec: the host-stack initialiser `BT_DATA_BYTES(type, bytes...)`,
whose definition is in a header outside this source tree.  It builds one
`bt_data` element holding exactly the listed bytes (the spec: a payload is
"flags + 128-bit service UUID"), with `data_len` the size of the byte array;
`type` and the bytes are stored in `u8_t` fields. -/
def BT_DATA_BYTES (type : Nat) (bytes : List Nat) : bt_data :=
  { type := type % 256, data_len := bytes.length, data := bytes.map (fun b => b % 256) }

/-- The element count of a static array, `ARRAY_SIZE(a)`. -/
def ARRAY_SIZE {α : Type} (a : List α) : Nat := a.length

/-- Advertise Peer IPV6 GATT service UUID (`ad_inet6[]`). -/
def ad_inet6 (h : BtDefs) : List bt_data :=
  [ BT_DATA_BYTES h.BT_DATA_FLAGS [h.BT_LE_AD_GENERAL ||| h.BT_LE_AD_NO_BREDR],
    BT_DATA_BYTES h.BT_DATA_UUID128_SOME
      [0x70, 0x14, 0x1c, 0xbe, 0xdd, 0xe6, 0x5a, 0xb3,
       0x8b, 0x49, 0xb4, 0x5d, 0x83, 0x11, 0x60, 0x49] ]

/-- Advertise Peer MCUMGR service UUID (`ad_mcumgr[]`). -/
def ad_mcumgr (h : BtDefs) : List bt_data :=
  [ BT_DATA_BYTES h.BT_DATA_FLAGS [h.BT_LE_AD_GENERAL ||| h.BT_LE_AD_NO_BREDR],
    BT_DATA_BYTES h.BT_DATA_UUID128_SOME
      [0x84, 0xaa, 0x60, 0x74, 0x52, 0x8a, 0x8b, 0x86,
       0xd3, 0x4c, 0xb7, 0x1d, 0x1d, 0xdc, 0x53, 0x8d] ]

/-- Scan respond OpenThread Settings GATT service UUID (`scan_resp_ot[]`). -/
def scan_resp_ot (h : BtDefs) : List bt_data :=
  [ BT_DATA_BYTES h.BT_DATA_UUID128_SOME
      [0x30, 0x0d, 0x90, 0xb4, 0x7b, 0x81, 0xec, 0x9b,
       0x41, 0xd4, 0x9a, 0xaa, 0x9c, 0xe4, 0xa9, 0xa8] ]

/-- The advertising parameter set passed to `bt_le_adv_start`. -/
inductive bt_le_adv_param where
  | BT_LE_ADV_CONN_NAME
deriving DecidableEq, Repr

/-- One call made by this module to a collaborator, with its arguments and,
for the calls whose result the source reads, the returned value. -/
inductive Call where
  | settings_ot_init (ret : Int)
  | gatt_inet6_init (ret : Int)
  | img_mgmt_register_group
  | bt_enable (ret : Int)
  | bt_conn_cb_register
  | smp_bt_register
  | k_sleep (ms : Nat)
  | bt_le_adv_stop
  | bt_le_adv_start (param : bt_le_adv_param) (ad : List bt_data) (ad_len : Nat)
      (sd : List bt_data) (sd_len : Nat) (ret : Int)
deriving DecidableEq, Repr

/-- One log statement of the source, with the value it prints. -/
inductive LogMsg where
  | err_advertising_failed (err : Int)
  | err_connection_failed (err : Nat)
  | dbg_connected
  | dbg_disconnected (reason : Nat)
  | err_settings_ot_init_failed (err : Int)
  | err_gatt_inet6_init_failed (err : Int)
  | err_bt_enable_failed (err : Int)
  | dbg_bluetooth_initialized
  | inf_advertising
deriving DecidableEq, Repr

/-- The program state: the global `active_conn`, the local `adv_bool` of
`bt_srv_init`, and the calls and log lines produced so far. -/
structure State where
  active_conn : Bool
  adv_bool : Bool
  calls : List Call
  log : List LogMsg
deriving DecidableEq, Repr

/-- Record a call to a collaborator. -/
def State.call (c : Call) (s : State) : State :=
  { s with calls := s.calls ++ [c] }

/-- Record a log line. -/
def State.emit (m : LogMsg) (s : State) : State :=
  { s with log := s.log ++ [m] }

/-- What `bt_srv_init` finds at entry: the build option, the values the three
checked setup stages return, the value of the global `active_conn` and the
indeterminate value of the not yet assigned local `adv_bool`. -/
structure Env where
  CONFIG_MCUMGR_CMD_IMG_MGMT : Bool
  settings_ot_init_ret : Int
  gatt_inet6_init_ret : Int
  bt_enable_ret : Int
  active_conn_entry : Bool
  adv_bool_entry : Bool
deriving DecidableEq, Repr

/-- What happens while the poll loop runs: one loop iteration, with the value
`bt_le_adv_start` returns if the iteration calls it, or one invocation of a
connection callback by the host stack. -/
inductive Event where
  | tick (adv_ret : Int)
  | connected (err : Nat)
  | disconnected (reason : Nat)
deriving DecidableEq, Repr

/-! ## Operations -/

/-- The helper `advertise(adv)`: stop advertising, start it with `adv`, log a failure. -/
def advertise (h : BtDefs) (adv : List bt_data) (adv_ret : Int) (s : State) : State :=
  let s := s.call Call.bt_le_adv_stop
  let err := adv_ret
  let s := s.call (Call.bt_le_adv_start bt_le_adv_param.BT_LE_ADV_CONN_NAME
    adv (ARRAY_SIZE (ad_inet6 h)) (scan_resp_ot h) (ARRAY_SIZE (scan_resp_ot h)) err)
  if err ≠ 0 then s.emit (LogMsg.err_advertising_failed err) else s

/-- The callback `connected(conn, err)`; `conn` is not used by the source. -/
def connected (err : Nat) (s : State) : State :=
  let s := { s with active_conn := true }
  if err ≠ 0 then s.emit (LogMsg.err_connection_failed err) else s.emit LogMsg.dbg_connected

/-- The callback `disconnected(conn, reason)`; `conn` is not used by the source. -/
def disconnected (reason : Nat) (s : State) : State :=
  let s := { s with active_conn := false }
  s.emit (LogMsg.dbg_disconnected reason)

/-- One iteration of the `while (1)` body of `bt_srv_init`. -/
def loop_body (h : BtDefs) (adv_ret : Int) (s : State) : State :=
  let s := s.call (Call.k_sleep 500)
  if !s.active_conn then
    let adv_tmp := if s.adv_bool then ad_inet6 h else ad_mcumgr h
    let s := advertise h adv_tmp adv_ret s
    { s with adv_bool := !s.adv_bool }
  else s

/-- The loop `while (1) ...` of `bt_srv_init` followed by its `return 0`, run
over a list of events.  The second component is the value returned, `none`
while the function is still inside the loop. -/
def poll_loop (h : BtDefs) : List Event → State → State × Option Int
  | [], s => (s, none)
  | Event.connected err :: es, s => poll_loop h es (connected err s)
  | Event.disconnected reason :: es, s => poll_loop h es (disconnected reason s)
  | Event.tick adv_ret :: es, s =>
    if (1 : Int) ≠ 0 then poll_loop h es (loop_body h adv_ret s) else (s, some 0)

/-- The function `bt_srv_init()`, run until it returns or until the events
are used up.  The second component is the value returned, `none` while the
function has not returned. -/
def bt_srv_init (h : BtDefs) (env : Env) (evs : List Event) : State × Option Int :=
  let s : State :=
    { active_conn := env.active_conn_entry, adv_bool := env.adv_bool_entry, calls := [], log := [] }
  let s := { s with active_conn := false }
  let s := { s with adv_bool := false }
  let err := env.settings_ot_init_ret
  let s := s.call (Call.settings_ot_init err)
  if err ≠ 0 then (s.emit (LogMsg.err_settings_ot_init_failed err), some err) else
  let err := env.gatt_inet6_init_ret
  let s := s.call (Call.gatt_inet6_init err)
  if err ≠ 0 then (s.emit (LogMsg.err_gatt_inet6_init_failed err), some err) else
  let s := if env.CONFIG_MCUMGR_CMD_IMG_MGMT then s.call Call.img_mgmt_register_group else s
  let err := env.bt_enable_ret
  let s := s.call (Call.bt_enable err)
  if err ≠ 0 then (s.emit (LogMsg.err_bt_enable_failed err), some err) else
  let s := s.emit LogMsg.dbg_bluetooth_initialized
  let s := s.call Call.bt_conn_cb_register
  let s := s.call Call.smp_bt_register
  let s := s.emit LogMsg.inf_advertising
  poll_loop h evs s

/-! ## Observers used in the statements -/

/-- All three checked setup stages return 0. -/
def setup_ok (env : Env) : Prop :=
  env.settings_ot_init_ret = 0 ∧ env.gatt_inet6_init_ret = 0 ∧ env.bt_enable_ret = 0

instance (env : Env) : Decidable (setup_ok env) :=
  inferInstanceAs (Decidable (_ ∧ _ ∧ _))

/-- The state in which a successful setup enters the poll loop. -/
def loop_entry (env : Env) : State :=
  { active_conn := false
    adv_bool := false
    calls := [Call.settings_ot_init 0, Call.gatt_inet6_init 0]
      ++ (if env.CONFIG_MCUMGR_CMD_IMG_MGMT then [Call.img_mgmt_register_group] else [])
      ++ [Call.bt_enable 0, Call.bt_conn_cb_register, Call.smp_bt_register]
    log := [LogMsg.dbg_bluetooth_initialized, LogMsg.inf_advertising] }

/-- Whether a call is an advertising call (`bt_le_adv_stop` or `bt_le_adv_start`). -/
def Call.is_adv : Call → Bool
  | Call.bt_le_adv_stop => true
  | Call.bt_le_adv_start _ _ _ _ _ _ => true
  | _ => false

/-- The payloads passed to `bt_le_adv_start`, in call order. -/
def adv_attempts : List Call → List (List bt_data)
  | [] => []
  | Call.bt_le_adv_start _ ad _ _ _ _ :: cs => ad :: adv_attempts cs
  | _ :: cs => adv_attempts cs

/-- The payload the loop selects for cursor value `b`. -/
def selected (h : BtDefs) (b : Bool) : List bt_data :=
  if b then ad_inet6 h else ad_mcumgr h

/-- The first `n` payloads of the sequence that starts with `ad_mcumgr` and
then alternates: position `k` holds `ad_inet6` exactly when `k` is odd. -/
def alternation (h : BtDefs) (n : Nat) : List (List bt_data) :=
  (List.range n).map (fun k => selected h (decide (k % 2 = 1)))

/-- The calls a state has made beyond the first `n`. -/
def State.calls_from (n : Nat) (s : State) : List Call := s.calls.drop n

/-- What every `bt_le_adv_start` call has to satisfy: the length argument is
the element count of the payload argument, the payload is one of the two
advertising tables, and the scan response is `scan_resp_ot` with length 1. -/
def Call.start_ok (h : BtDefs) : Call → Prop
  | Call.bt_le_adv_start _ ad ad_len sd sd_len _ =>
    ad_len = ARRAY_SIZE ad ∧ (ad = ad_inet6 h ∨ ad = ad_mcumgr h) ∧
      sd = scan_resp_ot h ∧ sd_len = 1 ∧ sd_len = ARRAY_SIZE sd
  | _ => True

/-- The effect of one call on the set of payloads on air, as the invariant of
the specification words it: a `bt_le_adv_start` that returns 0 puts its payload
on air, `bt_le_adv_stop` clears everything, no other call changes it. -/
def on_air_step (cur : List (List bt_data)) : Call → List (List bt_data)
  | Call.bt_le_adv_stop => []
  | Call.bt_le_adv_start _ ad _ _ _ ret => if ret = 0 then cur ++ [ad] else cur
  | _ => cur

/-- The payloads on air after a sequence of calls, starting with none. -/
def on_air (cs : List Call) : List (List bt_data) :=
  cs.foldl on_air_step []

/-- Sample header values (the Bluetooth assigned numbers) for concrete runs. -/
def defs0 : BtDefs :=
  { BT_DATA_FLAGS := 0x01, BT_DATA_UUID128_SOME := 0x06,
    BT_LE_AD_GENERAL := 0x02, BT_LE_AD_NO_BREDR := 0x04 }

/-- A function entry at which every setup stage succeeds. -/
def env0 : Env :=
  { CONFIG_MCUMGR_CMD_IMG_MGMT := true, settings_ot_init_ret := 0, gatt_inet6_init_ret := 0,
    bt_enable_ret := 0, active_conn_entry := true, adv_bool_entry := true }

/-! ## Basic lemmas -/

theorem poll_loop_snd (h : BtDefs) (evs : List Event) (s : State) :
    (poll_loop h evs s).2 = none := by
  induction evs generalizing s with
  | nil => rfl
  | cons e es ih => cases e <;> simp [poll_loop, ih]

theorem poll_loop_append (h : BtDefs) (a b : List Event) (s : State) :
    poll_loop h (a ++ b) s = poll_loop h b (poll_loop h a s).1 := by
  induction a generalizing s with
  | nil => rfl
  | cons e es ih => cases e <;> simp [poll_loop, ih]

theorem bt_srv_init_ok (h : BtDefs) (env : Env) (hok : setup_ok env) (evs : List Event) :
    bt_srv_init h env evs = poll_loop h evs (loop_entry env) := by
  obtain ⟨h1, h2, h3⟩ := hok
  cases hc : env.CONFIG_MCUMGR_CMD_IMG_MGMT <;>
    simp [bt_srv_init, loop_entry, State.call, State.emit, h1, h2, h3, hc]

/-! ## Frame and trace lemmas -/

theorem connected_active_conn (err : Nat) (s : State) : (connected err s).active_conn = true := by
  unfold connected; split <;> rfl

theorem connected_adv_bool (err : Nat) (s : State) : (connected err s).adv_bool = s.adv_bool := by
  unfold connected; split <;> rfl

theorem connected_calls (err : Nat) (s : State) : (connected err s).calls = s.calls := by
  unfold connected; split <;> rfl

theorem disconnected_active_conn (r : Nat) (s : State) : (disconnected r s).active_conn = false := rfl

theorem disconnected_adv_bool (r : Nat) (s : State) : (disconnected r s).adv_bool = s.adv_bool := rfl

theorem disconnected_calls (r : Nat) (s : State) : (disconnected r s).calls = s.calls := rfl

theorem advertise_calls (h : BtDefs) (adv : List bt_data) (ret : Int) (s : State) :
    (advertise h adv ret s).calls = s.calls ++ [Call.bt_le_adv_stop,
      Call.bt_le_adv_start bt_le_adv_param.BT_LE_ADV_CONN_NAME adv 2 (scan_resp_ot h) 1 ret] := by
  by_cases hr : ret = 0 <;>
    simp [advertise, State.call, State.emit, ARRAY_SIZE, ad_inet6, scan_resp_ot, hr]

theorem loop_body_active_conn (h : BtDefs) (ret : Int) (s : State) :
    (loop_body h ret s).active_conn = s.active_conn := by
  by_cases hr : ret = 0 <;> cases hc : s.active_conn <;>
    simp [loop_body, advertise, State.call, State.emit, hc, hr]

theorem loop_body_adv_bool (h : BtDefs) (ret : Int) (s : State) :
    (loop_body h ret s).adv_bool = if s.active_conn then s.adv_bool else !s.adv_bool := by
  by_cases hr : ret = 0 <;> cases hc : s.active_conn <;>
    simp [loop_body, advertise, State.call, State.emit, hc, hr]

theorem loop_body_calls (h : BtDefs) (ret : Int) (s : State) :
    (loop_body h ret s).calls = s.calls ++
      (if s.active_conn then [Call.k_sleep 500]
       else [Call.k_sleep 500, Call.bt_le_adv_stop,
         Call.bt_le_adv_start bt_le_adv_param.BT_LE_ADV_CONN_NAME (selected h s.adv_bool) 2
           (scan_resp_ot h) 1 ret]) := by
  unfold loop_body
  cases hc : s.active_conn
  · simp [State.call, hc, advertise_calls, selected]
  · simp [State.call, hc]

theorem loop_body_log (h : BtDefs) (ret : Int) (s : State) :
    (loop_body h ret s).log = s.log ++
      (if s.active_conn = false ∧ ret ≠ 0 then [LogMsg.err_advertising_failed ret] else []) := by
  by_cases hr : ret = 0 <;> cases hc : s.active_conn <;>
    simp [loop_body, advertise, State.call, State.emit, hc, hr]

theorem ad_mcumgr_ne_ad_inet6 (h : BtDefs) : ad_mcumgr h ≠ ad_inet6 h := by
  intro heq
  simp [ad_mcumgr, ad_inet6, BT_DATA_BYTES] at heq

theorem selected_not_ne (h : BtDefs) (b : Bool) : selected h (!b) ≠ selected h b := by
  cases b
  · exact fun heq => ad_mcumgr_ne_ad_inet6 h heq.symm
  · exact ad_mcumgr_ne_ad_inet6 h

/-! ## Setup lemmas -/

theorem bt_srv_init_fail_settings (h : BtDefs) (env : Env) (evs : List Event)
    (h1 : env.settings_ot_init_ret ≠ 0) :
    bt_srv_init h env evs =
      ({ active_conn := false, adv_bool := false,
         calls := [Call.settings_ot_init env.settings_ot_init_ret],
         log := [LogMsg.err_settings_ot_init_failed env.settings_ot_init_ret] },
       some env.settings_ot_init_ret) := by
  simp [bt_srv_init, State.call, State.emit, h1]

theorem bt_srv_init_fail_gatt (h : BtDefs) (env : Env) (evs : List Event)
    (h1 : env.settings_ot_init_ret = 0) (h2 : env.gatt_inet6_init_ret ≠ 0) :
    bt_srv_init h env evs =
      ({ active_conn := false, adv_bool := false,
         calls := [Call.settings_ot_init 0, Call.gatt_inet6_init env.gatt_inet6_init_ret],
         log := [LogMsg.err_gatt_inet6_init_failed env.gatt_inet6_init_ret] },
       some env.gatt_inet6_init_ret) := by
  simp [bt_srv_init, State.call, State.emit, h1, h2]

theorem bt_srv_init_fail_enable (h : BtDefs) (env : Env) (evs : List Event)
    (h1 : env.settings_ot_init_ret = 0) (h2 : env.gatt_inet6_init_ret = 0)
    (h3 : env.bt_enable_ret ≠ 0) :
    bt_srv_init h env evs =
      ({ active_conn := false, adv_bool := false,
         calls := [Call.settings_ot_init 0, Call.gatt_inet6_init 0]
           ++ (if env.CONFIG_MCUMGR_CMD_IMG_MGMT then [Call.img_mgmt_register_group] else [])
           ++ [Call.bt_enable env.bt_enable_ret],
         log := [LogMsg.err_bt_enable_failed env.bt_enable_ret] },
       some env.bt_enable_ret) := by
  cases hc : env.CONFIG_MCUMGR_CMD_IMG_MGMT <;>
    simp [bt_srv_init, State.call, State.emit, h1, h2, h3, hc]

theorem poll_loop_ticks_active_conn (h : BtDefs) (rets : List Int) (s : State) :
    (poll_loop h (rets.map Event.tick) s).1.active_conn = s.active_conn := by
  induction rets generalizing s with
  | nil => rfl
  | cons r rs ih => simp [poll_loop, ih, loop_body_active_conn]

theorem calls_from_loop_body (h : BtDefs) (ret : Int) (s : State) :
    (loop_body h ret s).calls_from s.calls.length =
      (if s.active_conn then [Call.k_sleep 500]
       else [Call.k_sleep 500, Call.bt_le_adv_stop,
         Call.bt_le_adv_start bt_le_adv_param.BT_LE_ADV_CONN_NAME (selected h s.adv_bool) 2
           (scan_resp_ot h) 1 ret]) := by
  simp [State.calls_from, loop_body_calls]

/-! ## Invariants of the poll loop -/

theorem adv_attempts_append (a b : List Call) :
    adv_attempts (a ++ b) = adv_attempts a ++ adv_attempts b := by
  induction a with
  | nil => rfl
  | cons c cs ih => cases c <;> simp [adv_attempts, ih]

theorem alternation_succ (h : BtDefs) (n : Nat) :
    alternation h (n + 1) = alternation h n ++ [selected h (decide (n % 2 = 1))] := by
  simp [alternation, List.range_succ]

theorem alternation_length (h : BtDefs) (n : Nat) : (alternation h n).length = n := by
  simp [alternation]

theorem alternation_getElem? (h : BtDefs) (n k : Nat) (x : List bt_data)
    (hx : (alternation h n)[k]? = some x) : x = selected h (decide (k % 2 = 1)) := by
  by_cases hk : k < n
  · simp [alternation, List.getElem?_range hk] at hx
    exact hx.symm
  · have hlen : (alternation h n).length ≤ k := by
      rw [alternation_length]
      omega
    rw [List.getElem?_eq_none hlen] at hx
    cases hx

theorem parity_succ (n : Nat) : (!decide (n % 2 = 1)) = decide ((n + 1) % 2 = 1) := by
  rcases Nat.mod_two_eq_zero_or_one n with h0 | h1
  · have : (n + 1) % 2 = 1 := by omega
    simp [h0, this]
  · have : (n + 1) % 2 = 0 := by omega
    simp [h1, this]

theorem loop_body_alternation (h : BtDefs) (ret : Int) (s : State)
    (hi : ∃ n, adv_attempts s.calls = alternation h n ∧ s.adv_bool = decide (n % 2 = 1)) :
    ∃ n, adv_attempts (loop_body h ret s).calls = alternation h n ∧
      (loop_body h ret s).adv_bool = decide (n % 2 = 1) := by
  obtain ⟨n, ha, hb⟩ := hi
  cases hc : s.active_conn
  · refine ⟨n + 1, ?_, ?_⟩
    · simp [loop_body_calls, hc, adv_attempts_append, adv_attempts, ha, alternation_succ, hb]
    · simp only [loop_body_adv_bool, hc, hb]
      simpa using parity_succ n
  · refine ⟨n, ?_, ?_⟩
    · simp [loop_body_calls, hc, adv_attempts_append, adv_attempts, ha]
    · simp [loop_body_adv_bool, hc, hb]

theorem poll_loop_alternation (h : BtDefs) (evs : List Event) (s : State)
    (hi : ∃ n, adv_attempts s.calls = alternation h n ∧ s.adv_bool = decide (n % 2 = 1)) :
    ∃ n, adv_attempts (poll_loop h evs s).1.calls = alternation h n ∧
      (poll_loop h evs s).1.adv_bool = decide (n % 2 = 1) := by
  induction evs generalizing s with
  | nil => exact hi
  | cons e es ih =>
    cases e with
    | tick ret =>
      simp only [poll_loop, ne_eq, one_ne_zero, not_false_eq_true, if_true]
      exact ih _ (loop_body_alternation h ret s hi)
    | connected err =>
      simp only [poll_loop]
      exact ih _ (by simpa [connected_calls, connected_adv_bool] using hi)
    | disconnected r =>
      simp only [poll_loop]
      exact ih _ (by simpa [disconnected_calls, disconnected_adv_bool] using hi)

theorem loop_entry_alternation (h : BtDefs) (env : Env) :
    ∃ n, adv_attempts (loop_entry env).calls = alternation h n ∧
      (loop_entry env).adv_bool = decide (n % 2 = 1) := by
  refine ⟨0, ?_, rfl⟩
  cases hc : env.CONFIG_MCUMGR_CMD_IMG_MGMT <;> simp [loop_entry, hc, adv_attempts, alternation]

theorem run_alternation (h : BtDefs) (env : Env) (hok : setup_ok env) (evs : List Event) :
    adv_attempts (bt_srv_init h env evs).1.calls =
        alternation h (adv_attempts (bt_srv_init h env evs).1.calls).length ∧
      (bt_srv_init h env evs).1.adv_bool =
        decide ((adv_attempts (bt_srv_init h env evs).1.calls).length % 2 = 1) := by
  rw [bt_srv_init_ok h env hok]
  obtain ⟨n, ha, hb⟩ := poll_loop_alternation h evs _ (loop_entry_alternation h env)
  rw [ha, alternation_length]
  exact ⟨rfl, hb⟩

theorem loop_body_start_ok (h : BtDefs) (ret : Int) (s : State)
    (hi : ∀ c ∈ s.calls, c.start_ok h) : ∀ c ∈ (loop_body h ret s).calls, c.start_ok h := by
  intro c hc
  rw [loop_body_calls] at hc
  rcases List.mem_append.1 hc with hc | hc
  · exact hi c hc
  · cases ha : s.active_conn <;> cases hb : s.adv_bool <;> simp [ha] at hc <;>
      rcases hc with rfl | rfl | rfl <;>
      simp [Call.start_ok, selected, hb, ARRAY_SIZE, ad_inet6, ad_mcumgr, scan_resp_ot]

theorem poll_loop_start_ok (h : BtDefs) (evs : List Event) (s : State)
    (hi : ∀ c ∈ s.calls, c.start_ok h) : ∀ c ∈ (poll_loop h evs s).1.calls, c.start_ok h := by
  induction evs generalizing s with
  | nil => exact hi
  | cons e es ih =>
    cases e with
    | tick ret =>
      simp only [poll_loop, ne_eq, one_ne_zero, not_false_eq_true, if_true]
      exact ih _ (loop_body_start_ok h ret s hi)
    | connected err =>
      simp only [poll_loop]
      exact ih _ (by simpa [connected_calls] using hi)
    | disconnected r =>
      simp only [poll_loop]
      exact ih _ (by simpa [disconnected_calls] using hi)

theorem loop_entry_start_ok (h : BtDefs) (env : Env) :
    ∀ c ∈ (loop_entry env).calls, c.start_ok h := by
  intro c hc
  cases hcfg : env.CONFIG_MCUMGR_CMD_IMG_MGMT <;> simp [loop_entry, hcfg] at hc <;>
    rcases hc with rfl | rfl | rfl | rfl | rfl | rfl <;> simp [Call.start_ok]

theorem on_air_loop_body (h : BtDefs) (ret : Int) (s : State) :
    on_air (loop_body h ret s).calls =
      (if s.active_conn then on_air s.calls
       else if ret = 0 then [selected h s.adv_bool] else []) := by
  rw [loop_body_calls]
  cases s.active_conn <;> by_cases hr : ret = 0 <;>
    simp [on_air, List.foldl_append, on_air_step, hr]

theorem poll_loop_on_air (h : BtDefs) (evs : List Event) (s : State)
    (hi : on_air s.calls = [] ∨ ∃ b, on_air s.calls = [selected h b]) :
    on_air (poll_loop h evs s).1.calls = [] ∨
      ∃ b, on_air (poll_loop h evs s).1.calls = [selected h b] := by
  induction evs generalizing s with
  | nil => exact hi
  | cons e es ih =>
    cases e with
    | tick ret =>
      simp only [poll_loop, ne_eq, one_ne_zero, not_false_eq_true, if_true]
      apply ih
      rw [on_air_loop_body]
      cases s.active_conn
      · by_cases hr : ret = 0
        · exact Or.inr ⟨s.adv_bool, by simp [hr]⟩
        · exact Or.inl (by simp [hr])
      · simpa using hi
    | connected err =>
      simp only [poll_loop]
      exact ih _ (by simpa [connected_calls] using hi)
    | disconnected r =>
      simp only [poll_loop]
      exact ih _ (by simpa [disconnected_calls] using hi)

theorem loop_entry_on_air (env : Env) : on_air (loop_entry env).calls = [] := by
  cases hc : env.CONFIG_MCUMGR_CMD_IMG_MGMT <;> simp [loop_entry, hc, on_air, on_air_step]

theorem loop_entry_attempts (env : Env) : adv_attempts (loop_entry env).calls = [] := by
  cases hc : env.CONFIG_MCUMGR_CMD_IMG_MGMT <;> simp [loop_entry, hc, adv_attempts]

theorem attempt_at (h : BtDefs) (env : Env) (hok : setup_ok env) (evs : List Event)
    (k : Nat) (x : List bt_data)
    (hx : (adv_attempts (bt_srv_init h env evs).1.calls)[k]? = some x) :
    x = selected h (decide (k % 2 = 1)) := by
  rw [(run_alternation h env hok evs).1] at hx
  exact alternation_getElem? h _ k x hx

theorem scenario_attempts (h : BtDefs) (env : Env) (hok : setup_ok env)
    (r1 r2 r3 r4 r5 : Int) (err reason : Nat) :
    adv_attempts (bt_srv_init h env
        [Event.tick r1, Event.tick r2, Event.connected err, Event.tick r3, Event.tick r4,
         Event.disconnected reason, Event.tick r5]).1.calls =
      [ad_mcumgr h, ad_inet6 h, ad_mcumgr h] := by
  have e0 : (loop_entry env).active_conn = false := rfl
  have e1 : (loop_entry env).adv_bool = false := rfl
  have e2 := loop_entry_attempts env
  rw [bt_srv_init_ok h env hok]
  generalize loop_entry env = s0 at e0 e1 e2 ⊢
  simp [poll_loop, loop_body_calls, loop_body_active_conn, loop_body_adv_bool,
    connected_calls, connected_active_conn, connected_adv_bool, disconnected_calls,
    disconnected_active_conn, disconnected_adv_bool, adv_attempts_append, adv_attempts,
    selected, e0, e1, e2]

theorem run_start_ok (h : BtDefs) (env : Env) (evs : List Event) :
    ∀ c ∈ (bt_srv_init h env evs).1.calls, c.start_ok h := by
  by_cases h1 : env.settings_ot_init_ret = 0
  · by_cases h2 : env.gatt_inet6_init_ret = 0
    · by_cases h3 : env.bt_enable_ret = 0
      · rw [bt_srv_init_ok h env ⟨h1, h2, h3⟩]
        exact poll_loop_start_ok h evs _ (loop_entry_start_ok h env)
      · rw [bt_srv_init_fail_enable h env evs h1 h2 h3]
        intro c hc
        cases hcfg : env.CONFIG_MCUMGR_CMD_IMG_MGMT <;> simp [hcfg] at hc <;>
          rcases hc with rfl | rfl | rfl | rfl <;> simp [Call.start_ok]
    · rw [bt_srv_init_fail_gatt h env evs h1 h2]
      intro c hc
      simp at hc
      rcases hc with rfl | rfl <;> simp [Call.start_ok]
  · rw [bt_srv_init_fail_settings h env evs h1]
    intro c hc
    simp at hc
    subst hc
    simp [Call.start_ok]

theorem returned_value (h : BtDefs) (env : Env) (evs : List Event) (e : Int)
    (hr : (bt_srv_init h env evs).2 = some e) :
    e ≠ 0 ∧
    (e = env.settings_ot_init_ret ∨
      (env.settings_ot_init_ret = 0 ∧ e = env.gatt_inet6_init_ret) ∨
      (env.settings_ot_init_ret = 0 ∧ env.gatt_inet6_init_ret = 0 ∧ e = env.bt_enable_ret)) ∧
    (∀ c ∈ (bt_srv_init h env evs).1.calls, c.is_adv = false ∧ ∀ ms, c ≠ Call.k_sleep ms) := by
  by_cases h1 : env.settings_ot_init_ret = 0
  · by_cases h2 : env.gatt_inet6_init_ret = 0
    · by_cases h3 : env.bt_enable_ret = 0
      · rw [bt_srv_init_ok h env ⟨h1, h2, h3⟩, poll_loop_snd] at hr
        cases hr
      · rw [bt_srv_init_fail_enable h env evs h1 h2 h3] at hr ⊢
        simp only [Option.some.injEq] at hr
        subst hr
        refine ⟨h3, Or.inr (Or.inr ⟨h1, h2, rfl⟩), ?_⟩
        intro c hc
        cases hcfg : env.CONFIG_MCUMGR_CMD_IMG_MGMT <;> simp [hcfg] at hc <;>
          rcases hc with rfl | rfl | rfl | rfl <;> simp [Call.is_adv]
    · rw [bt_srv_init_fail_gatt h env evs h1 h2] at hr ⊢
      simp only [Option.some.injEq] at hr
      subst hr
      refine ⟨h2, Or.inr (Or.inl ⟨h1, rfl⟩), ?_⟩
      intro c hc
      simp at hc
      rcases hc with rfl | rfl <;> simp [Call.is_adv]
  · rw [bt_srv_init_fail_settings h env evs h1] at hr ⊢
    simp only [Option.some.injEq] at hr
    subst hr
    refine ⟨h1, Or.inl rfl, ?_⟩
    intro c hc
    simp at hc
    subst hc
    simp [Call.is_adv]

theorem selected_parity (h : BtDefs) (k : Nat) :
    selected h (decide (k % 2 = 1)) = if k % 2 = 0 then ad_mcumgr h else ad_inet6 h := by
  rcases Nat.mod_two_eq_zero_or_one k with h0 | h1
  · simp [selected, h0]
  · simp [selected, h1]

theorem alternation_eq (h : BtDefs) (n : Nat) :
    alternation h n =
      (List.range n).map (fun k => if k % 2 = 0 then ad_mcumgr h else ad_inet6 h) := by
  unfold alternation
  exact List.map_congr_left (fun k _ => selected_parity h k)

theorem poll_loop_ticks_attempts (h : BtDefs) (rets : List Int) (s : State) (n : Nat)
    (hc : s.active_conn = false) (ha : adv_attempts s.calls = alternation h n)
    (hb : s.adv_bool = decide (n % 2 = 1)) :
    adv_attempts (poll_loop h (rets.map Event.tick) s).1.calls =
      alternation h (n + rets.length) := by
  induction rets generalizing s n with
  | nil => simpa using ha
  | cons r rs ih =>
    simp only [List.map_cons, poll_loop, ne_eq, one_ne_zero, not_false_eq_true, if_true]
    rw [ih (loop_body h r s) (n + 1)]
    · simp only [List.length_cons]
      congr 1
      omega
    · simp [loop_body_active_conn, hc]
    · simp [loop_body_calls, hc, adv_attempts_append, adv_attempts, ha, alternation_succ, hb]
    · simp only [loop_body_adv_bool, hc, hb]
      simpa using parity_succ n

theorem ticks_attempts (h : BtDefs) (env : Env) (hok : setup_ok env) (rets : List Int) :
    adv_attempts (bt_srv_init h env (rets.map Event.tick)).1.calls =
      (List.range rets.length).map
        (fun k => if k % 2 = 0 then ad_mcumgr h else ad_inet6 h) := by
  rw [bt_srv_init_ok h env hok,
    poll_loop_ticks_attempts h rets (loop_entry env) 0 rfl
      (by rw [loop_entry_attempts]; rfl) rfl,
    alternation_eq, Nat.zero_add]

theorem poll_loop_calls_extend (h : BtDefs) (evs : List Event) (s : State) :
    ∃ t, (poll_loop h evs s).1.calls = s.calls ++ t := by
  induction evs generalizing s with
  | nil => exact ⟨[], by simp [poll_loop]⟩
  | cons e es ih =>
    cases e with
    | tick ret =>
      simp only [poll_loop, ne_eq, one_ne_zero, not_false_eq_true, if_true]
      obtain ⟨t, ht⟩ := ih (loop_body h ret s)
      rw [ht, loop_body_calls, List.append_assoc]
      exact ⟨_, rfl⟩
    | connected err =>
      simp only [poll_loop]
      obtain ⟨t, ht⟩ := ih (connected err s)
      exact ⟨t, by rw [ht, connected_calls]⟩
    | disconnected r =>
      simp only [poll_loop]
      obtain ⟨t, ht⟩ := ih (disconnected r s)
      exact ⟨t, by rw [ht, disconnected_calls]⟩

theorem first_tick_attempt (h : BtDefs) (env : Env) (hok : setup_ok env) (ret : Int)
    (evs : List Event) :
    (adv_attempts (bt_srv_init h env (Event.tick ret :: evs)).1.calls).head? =
      some (ad_mcumgr h) := by
  rw [bt_srv_init_ok h env hok]
  simp only [poll_loop, ne_eq, one_ne_zero, not_false_eq_true, if_true]
  obtain ⟨t, ht⟩ := poll_loop_calls_extend h evs (loop_body h ret (loop_entry env))
  have e0 : (loop_entry env).active_conn = false := rfl
  have e1 : (loop_entry env).adv_bool = false := rfl
  have e2 := loop_entry_attempts env
  rw [ht, loop_body_calls]
  generalize loop_entry env = s0 at e0 e1 e2 ⊢
  simp [adv_attempts_append, adv_attempts, e0, e1, e2, selected]

theorem tick_extends_attempts (h : BtDefs) (env : Env) (hok : setup_ok env)
    (evs : List Event) (ret : Int) :
    adv_attempts (bt_srv_init h env (evs ++ [Event.tick ret])).1.calls =
      adv_attempts (bt_srv_init h env evs).1.calls ++
        (if (bt_srv_init h env evs).1.active_conn then []
         else [if (adv_attempts (bt_srv_init h env evs).1.calls).length % 2 = 0
               then ad_mcumgr h else ad_inet6 h]) := by
  have hb := (run_alternation h env hok evs).2
  rw [bt_srv_init_ok h env hok] at hb ⊢
  rw [bt_srv_init_ok h env hok, poll_loop_append]
  simp only [poll_loop, ne_eq, one_ne_zero, not_false_eq_true, if_true]
  rw [loop_body_calls, adv_attempts_append]
  cases hc : (poll_loop h evs (loop_entry env)).1.active_conn
  · simp only [adv_attempts, hb, Bool.false_eq_true, if_false, selected_parity]
  · simp [adv_attempts]

theorem callbacks_keep_calls (h : BtDefs) (cbs : List Event) (s : State)
    (hcb : ∀ e ∈ cbs, ∀ ret : Int, e ≠ Event.tick ret) :
    (poll_loop h cbs s).1.calls = s.calls := by
  induction cbs generalizing s with
  | nil => rfl
  | cons e es ih =>
    have hes : ∀ e ∈ es, ∀ ret : Int, e ≠ Event.tick ret :=
      fun e he => hcb e (List.mem_cons_of_mem _ he)
    cases e with
    | tick ret => exact absurd rfl (hcb (Event.tick ret) (List.mem_cons_self _ _) ret)
    | connected err => simp only [poll_loop, ih _ hes, connected_calls]
    | disconnected r => simp only [poll_loop, ih _ hes, disconnected_calls]

/-! ## The connection flag -/

/-- C1: after any sequence of events that ends with a `connected` invocation the
flag `active_conn` is true, after any that ends with a `disconnected` invocation
it is false, whatever the starting state, the events before the last one and the
`err` / `reason` codes are; `connected` sets the flag for every `err`, zero or not. -/
theorem connection_state_follows_last_event (h : BtDefs) (s : State) (pre : List Event) :
    (∀ err : Nat, (connected err s).active_conn = true) ∧
    (∀ reason : Nat, (disconnected reason s).active_conn = false) ∧
    (∀ err : Nat, (poll_loop h (pre ++ [Event.connected err]) s).1.active_conn = true) ∧
    (∀ reason : Nat,
      (poll_loop h (pre ++ [Event.disconnected reason]) s).1.active_conn = false) := by
  refine ⟨fun err => connected_active_conn err s, fun r => disconnected_active_conn r s, ?_, ?_⟩
  · intro err
    rw [poll_loop_append]
    simp [poll_loop, connected_active_conn]
  · intro r
    rw [poll_loop_append]
    simp [poll_loop, disconnected_active_conn]

/-! ## One poll tick -/

/-- C2: a poll tick of the loop runs the loop body once.  With `active_conn` false the
body issues, after the sleep, exactly one `bt_le_adv_stop` followed by exactly one
`bt_le_adv_start`; with `active_conn` true it issues no advertising call and leaves
`adv_bool` unchanged.  So a tick makes an advertising call if and only if
`active_conn` is false at that tick. -/
theorem tick_advertises_iff_disconnected (h : BtDefs) (s : State) (ret : Int)
    (es : List Event) :
    poll_loop h (Event.tick ret :: es) s = poll_loop h es (loop_body h ret s) ∧
    (loop_body h ret s).calls = s.calls ++ (loop_body h ret s).calls_from s.calls.length ∧
    (loop_body h ret s).calls_from s.calls.length =
      (if s.active_conn then [Call.k_sleep 500]
       else [Call.k_sleep 500, Call.bt_le_adv_stop,
         Call.bt_le_adv_start bt_le_adv_param.BT_LE_ADV_CONN_NAME
           (if s.adv_bool then ad_inet6 h else ad_mcumgr h) 2 (scan_resp_ot h) 1 ret]) ∧
    ((loop_body h ret s).calls_from s.calls.length).filter Call.is_adv =
      (if s.active_conn then []
       else [Call.bt_le_adv_stop,
         Call.bt_le_adv_start bt_le_adv_param.BT_LE_ADV_CONN_NAME
           (if s.adv_bool then ad_inet6 h else ad_mcumgr h) 2 (scan_resp_ot h) 1 ret]) ∧
    (loop_body h ret s).adv_bool = (if s.active_conn then s.adv_bool else !s.adv_bool) ∧
    ((∃ c ∈ (loop_body h ret s).calls_from s.calls.length, c.is_adv = true) ↔
      s.active_conn = false) := by
  refine ⟨by simp [poll_loop], ?_, ?_, ?_, loop_body_adv_bool h ret s, ?_⟩
  · simp [State.calls_from, loop_body_calls]
  · simp [calls_from_loop_body, selected]
  · rw [calls_from_loop_body]
    cases s.active_conn <;> simp [Call.is_adv, selected]
  · rw [calls_from_loop_body]
    cases s.active_conn <;> simp [Call.is_adv]

/-- C5: on a poll tick taken with `active_conn` false, whatever `bt_le_adv_start`
returns (zero or not), the tick ends with `adv_bool` negated and `active_conn` still
false, the loop goes on with the remaining events and has not returned, a nonzero
result is only logged, and the next such tick attempts the other payload. -/
theorem cursor_toggles_on_any_result (h : BtDefs) (s : State) (ret : Int)
    (hd : s.active_conn = false) (es : List Event) :
    (loop_body h ret s).adv_bool = (!s.adv_bool) ∧
    (loop_body h ret s).active_conn = false ∧
    poll_loop h (Event.tick ret :: es) s = poll_loop h es (loop_body h ret s) ∧
    (poll_loop h (Event.tick ret :: es) s).2 = none ∧
    (loop_body h ret s).log =
      s.log ++ (if ret ≠ 0 then [LogMsg.err_advertising_failed ret] else []) ∧
    adv_attempts ((loop_body h ret s).calls_from s.calls.length) =
      [if s.adv_bool then ad_inet6 h else ad_mcumgr h] ∧
    (∀ ret2 : Int,
      adv_attempts ((loop_body h ret2 (loop_body h ret s)).calls_from
          (loop_body h ret s).calls.length) =
        [if s.adv_bool then ad_mcumgr h else ad_inet6 h]) ∧
    (if s.adv_bool then ad_mcumgr h else ad_inet6 h) ≠
      (if s.adv_bool then ad_inet6 h else ad_mcumgr h) := by
  have hb : (loop_body h ret s).adv_bool = (!s.adv_bool) := by
    simp [loop_body_adv_bool, hd]
  have ha : (loop_body h ret s).active_conn = false := by
    simp [loop_body_active_conn, hd]
  refine ⟨hb, ha, by simp [poll_loop], poll_loop_snd _ _ _, ?_, ?_, ?_, ?_⟩
  · simp [loop_body_log, hd]
  · simp [calls_from_loop_body, hd, adv_attempts, selected]
  · intro ret2
    rw [calls_from_loop_body, ha, hb]
    cases s.adv_bool <;> simp [adv_attempts, selected]
  · cases s.adv_bool
    · simpa using (ad_mcumgr_ne_ad_inet6 h).symm
    · simpa using ad_mcumgr_ne_ad_inet6 h

/-- A disconnected tick whose `bt_le_adv_start` fails with -5: the cursor still
toggles and the loop goes on. -/
theorem cursor_toggles_on_any_result_witness :
    (loop_entry env0).active_conn = false ∧
    (loop_body defs0 (-5) (loop_entry env0)).adv_bool = (!(loop_entry env0).adv_bool) ∧
    (poll_loop defs0 [Event.tick (-5)] (loop_entry env0)).2 = none :=
  ⟨rfl,
   (cursor_toggles_on_any_result defs0 (loop_entry env0) (-5) rfl []).1,
   (cursor_toggles_on_any_result defs0 (loop_entry env0) (-5) rfl []).2.2.2.1⟩

/-- C8: `bt_srv_init` sets `active_conn` to false at startup whatever it was at entry;
no poll tick writes `active_conn`, whatever `bt_le_adv_start` returns; the callbacks
`connected` and `disconnected` leave the cursor `adv_bool` unchanged and make no call to
a collaborator, so no `bt_le_adv_stop` or `bt_le_adv_start`. -/
theorem active_conn_frame (h : BtDefs) (env : Env) (s : State) :
    (bt_srv_init h env []).1.active_conn = false ∧
    (∀ ret : Int, (loop_body h ret s).active_conn = s.active_conn) ∧
    (∀ rets : List Int, (poll_loop h (rets.map Event.tick) s).1.active_conn = s.active_conn) ∧
    (∀ err : Nat, (connected err s).adv_bool = s.adv_bool ∧ (connected err s).calls = s.calls) ∧
    (∀ reason : Nat,
      (disconnected reason s).adv_bool = s.adv_bool ∧ (disconnected reason s).calls = s.calls) := by
  refine ⟨?_, fun ret => loop_body_active_conn h ret s,
    fun rets => poll_loop_ticks_active_conn h rets s,
    fun err => ⟨connected_adv_bool err s, connected_calls err s⟩,
    fun r => ⟨disconnected_adv_bool r s, disconnected_calls r s⟩⟩
  by_cases h1 : env.settings_ot_init_ret = 0
  · by_cases h2 : env.gatt_inet6_init_ret = 0
    · by_cases h3 : env.bt_enable_ret = 0
      · rw [bt_srv_init_ok h env ⟨h1, h2, h3⟩]
        rfl
      · rw [bt_srv_init_fail_enable h env [] h1 h2 h3]
    · rw [bt_srv_init_fail_gatt h env [] h1 h2]
  · rw [bt_srv_init_fail_settings h env [] h1]

/-! ## Setup -/

/-- C4: the collaborators are called in the order `settings_ot_init`, `gatt_inet6_init`,
(`img_mgmt_register_group` when configured), `bt_enable`, `bt_conn_cb_register`,
`smp_bt_register`.  When the first failing checked stage returns a nonzero `e`,
`bt_srv_init` returns exactly `e`, the calls made are exactly the earlier stages, once
each and in order, followed by the failing stage, and nothing else is called, whatever
events follow: no later stage, no registration, no sleep, no advertising call. -/
theorem init_failure_propagates (h : BtDefs) (cfg g u : Bool) (r2 r3 e : Int)
    (he : e ≠ 0) (evs : List Event) :
    bt_srv_init h ⟨cfg, e, r2, r3, g, u⟩ evs =
      ({ active_conn := false, adv_bool := false,
         calls := [Call.settings_ot_init e],
         log := [LogMsg.err_settings_ot_init_failed e] }, some e) ∧
    bt_srv_init h ⟨cfg, 0, e, r3, g, u⟩ evs =
      ({ active_conn := false, adv_bool := false,
         calls := [Call.settings_ot_init 0, Call.gatt_inet6_init e],
         log := [LogMsg.err_gatt_inet6_init_failed e] }, some e) ∧
    bt_srv_init h ⟨cfg, 0, 0, e, g, u⟩ evs =
      ({ active_conn := false, adv_bool := false,
         calls := [Call.settings_ot_init 0, Call.gatt_inet6_init 0]
           ++ (if cfg then [Call.img_mgmt_register_group] else [])
           ++ [Call.bt_enable e],
         log := [LogMsg.err_bt_enable_failed e] }, some e) ∧
    (bt_srv_init h ⟨cfg, 0, 0, 0, g, u⟩ []).1.calls =
      [Call.settings_ot_init 0, Call.gatt_inet6_init 0]
        ++ (if cfg then [Call.img_mgmt_register_group] else [])
        ++ [Call.bt_enable 0, Call.bt_conn_cb_register, Call.smp_bt_register] := by
  refine ⟨?_, ?_, ?_, ?_⟩
  · exact bt_srv_init_fail_settings h ⟨cfg, e, r2, r3, g, u⟩ evs he
  · exact bt_srv_init_fail_gatt h ⟨cfg, 0, e, r3, g, u⟩ evs rfl he
  · exact bt_srv_init_fail_enable h ⟨cfg, 0, 0, e, g, u⟩ evs rfl rfl he
  · rw [bt_srv_init_ok h ⟨cfg, 0, 0, 0, g, u⟩ ⟨rfl, rfl, rfl⟩]
    rfl

/-- The stage `bt_enable` fails with -19 while ticks and a connect event are pending:
the function returns -19 after four calls. -/
theorem init_failure_propagates_witness :
    (-19 : Int) ≠ 0 ∧
    bt_srv_init defs0 ⟨true, 0, 0, -19, true, true⟩ [Event.tick 0, Event.connected 0] =
      ({ active_conn := false, adv_bool := false,
         calls := [Call.settings_ot_init 0, Call.gatt_inet6_init 0]
           ++ (if true then [Call.img_mgmt_register_group] else [])
           ++ [Call.bt_enable (-19)],
         log := [LogMsg.err_bt_enable_failed (-19)] }, some (-19)) :=
  ⟨by decide,
   (init_failure_propagates defs0 true true true 7 9 (-19) (by decide)
      [Event.tick 0, Event.connected 0]).2.2.1⟩

/-! ## Alternation of the payloads -/

/-- C3: after a successful setup, for every interleaving of ticks and connect/disconnect
events, the payloads passed to `bt_le_adv_start` alternate with cycle length 2: two
consecutive attempts use different payloads, attempts two apart use the same payload,
and every payload is `ad_mcumgr` or `ad_inet6`.  A tick taken while connected and the
two callbacks leave the cursor `adv_bool` unchanged.  In the scenario tick, tick,
connect, tick, tick, disconnect, tick the three attempts use A, B and A again, where
A is `ad_mcumgr` and B is `ad_inet6`. -/
theorem payloads_alternate (h : BtDefs) (env : Env) (hok : setup_ok env) (evs : List Event) :
    (∀ (k : Nat) (x y : List bt_data),
      (adv_attempts (bt_srv_init h env evs).1.calls)[k]? = some x →
      (adv_attempts (bt_srv_init h env evs).1.calls)[k + 1]? = some y → x ≠ y) ∧
    (∀ (k : Nat) (x z : List bt_data),
      (adv_attempts (bt_srv_init h env evs).1.calls)[k]? = some x →
      (adv_attempts (bt_srv_init h env evs).1.calls)[k + 2]? = some z → x = z) ∧
    (∀ x ∈ adv_attempts (bt_srv_init h env evs).1.calls, x = ad_mcumgr h ∨ x = ad_inet6 h) ∧
    (∀ (s : State) (ret : Int), s.active_conn = true →
      (loop_body h ret s).adv_bool = s.adv_bool) ∧
    (∀ (s : State) (err : Nat), (connected err s).adv_bool = s.adv_bool) ∧
    (∀ (s : State) (reason : Nat), (disconnected reason s).adv_bool = s.adv_bool) ∧
    (∀ (r1 r2 r3 r4 r5 : Int) (err reason : Nat),
      adv_attempts (bt_srv_init h env
          [Event.tick r1, Event.tick r2, Event.connected err, Event.tick r3, Event.tick r4,
           Event.disconnected reason, Event.tick r5]).1.calls =
        [ad_mcumgr h, ad_inet6 h, ad_mcumgr h]) := by
  refine ⟨?_, ?_, ?_, ?_, fun s err => connected_adv_bool err s,
    fun s r => disconnected_adv_bool r s, scenario_attempts h env hok⟩
  · intro k x y hx hy
    rw [attempt_at h env hok evs k x hx, attempt_at h env hok evs (k + 1) y hy,
      ← parity_succ k]
    exact (selected_not_ne h _).symm
  · intro k x z hx hz
    rw [attempt_at h env hok evs k x hx, attempt_at h env hok evs (k + 2) z hz]
    have hk : (k + 2) % 2 = k % 2 := by omega
    rw [hk]
  · intro x hx
    obtain ⟨k, hk⟩ := List.getElem?_of_mem hx
    rw [attempt_at h env hok evs k x hk]
    cases decide (k % 2 = 1) <;> simp [selected]
  · intro s ret hc
    simp [loop_body_adv_bool, hc]

/-- The scenario with a failing second start: the attempts are `ad_mcumgr`, `ad_inet6`
and, after the connected interval, `ad_mcumgr` again. -/
theorem payloads_alternate_witness :
    setup_ok env0 ∧
    adv_attempts (bt_srv_init defs0 env0
        [Event.tick 0, Event.tick (-5), Event.connected 0, Event.tick 0, Event.tick 0,
         Event.disconnected 19, Event.tick 0]).1.calls =
      [ad_mcumgr defs0, ad_inet6 defs0, ad_mcumgr defs0] :=
  ⟨⟨rfl, rfl, rfl⟩,
   (payloads_alternate defs0 env0 ⟨rfl, rfl, rfl⟩ []).2.2.2.2.2.2 0 (-5) 0 0 0 0 19⟩

/-- C10: after a successful setup, for every interleaving of ticks and events and every
sequence of `bt_le_adv_start` results, attempt number `k` (from 0) uses `ad_mcumgr` when
`k` is even and `ad_inet6` when `k` is odd; the cursor `adv_bool` is true exactly when
the number of attempts made so far is odd; the first payload advertised is `ad_mcumgr`;
and the two payloads differ, in the bytes of their UUID element.  The attempts are really
made: a tick taken with `active_conn` false adds exactly one attempt, with the payload of
its index, a tick taken with `active_conn` true and the callbacks add none; `n` ticks with
no callback in between make exactly `n` attempts; and the first tick after startup sends
`ad_mcumgr`, whatever follows. -/
theorem attempt_payload_by_parity (h : BtDefs) (env : Env) (hok : setup_ok env)
    (evs : List Event) :
    (∀ (k : Nat) (x : List bt_data),
      (adv_attempts (bt_srv_init h env evs).1.calls)[k]? = some x →
      x = if k % 2 = 0 then ad_mcumgr h else ad_inet6 h) ∧
    (bt_srv_init h env evs).1.adv_bool =
      decide ((adv_attempts (bt_srv_init h env evs).1.calls).length % 2 = 1) ∧
    (∀ x : List bt_data,
      (adv_attempts (bt_srv_init h env evs).1.calls).head? = some x → x = ad_mcumgr h) ∧
    ad_mcumgr h ≠ ad_inet6 h ∧
    (ad_mcumgr h).map bt_data.data ≠ (ad_inet6 h).map bt_data.data ∧
    adv_attempts (bt_srv_init h env []).1.calls = [] ∧
    (∀ ret : Int,
      adv_attempts (bt_srv_init h env (evs ++ [Event.tick ret])).1.calls =
        adv_attempts (bt_srv_init h env evs).1.calls ++
          (if (bt_srv_init h env evs).1.active_conn then []
           else [if (adv_attempts (bt_srv_init h env evs).1.calls).length % 2 = 0
                 then ad_mcumgr h else ad_inet6 h])) ∧
    (∀ err : Nat,
      adv_attempts (bt_srv_init h env (evs ++ [Event.connected err])).1.calls =
        adv_attempts (bt_srv_init h env evs).1.calls) ∧
    (∀ reason : Nat,
      adv_attempts (bt_srv_init h env (evs ++ [Event.disconnected reason])).1.calls =
        adv_attempts (bt_srv_init h env evs).1.calls) ∧
    (∀ rets : List Int,
      adv_attempts (bt_srv_init h env (rets.map Event.tick)).1.calls =
        (List.range rets.length).map
          (fun k => if k % 2 = 0 then ad_mcumgr h else ad_inet6 h)) ∧
    (∀ ret : Int,
      (adv_attempts (bt_srv_init h env (Event.tick ret :: evs)).1.calls).head? =
        some (ad_mcumgr h)) := by
  refine ⟨?_, (run_alternation h env hok evs).2, ?_, ad_mcumgr_ne_ad_inet6 h, ?_, ?_,
    tick_extends_attempts h env hok evs, ?_, ?_, ticks_attempts h env hok,
    fun ret => first_tick_attempt h env hok ret evs⟩
  · intro k x hx
    rw [attempt_at h env hok evs k x hx]
    exact selected_parity h k
  · intro x hx
    rw [List.head?_eq_getElem?] at hx
    rw [attempt_at h env hok evs 0 x hx]
    rfl
  · intro heq
    simp [ad_mcumgr, ad_inet6, BT_DATA_BYTES] at heq
  · rw [bt_srv_init_ok h env hok]
    exact loop_entry_attempts env
  · intro err
    rw [bt_srv_init_ok h env hok, bt_srv_init_ok h env hok, poll_loop_append]
    simp [poll_loop, connected_calls]
  · intro r
    rw [bt_srv_init_ok h env hok, bt_srv_init_ok h env hok, poll_loop_append]
    simp [poll_loop, disconnected_calls]

/-- Three disconnected ticks, the second with a failing start: three attempts are made,
with `ad_mcumgr`, `ad_inet6` and `ad_mcumgr`. -/
theorem attempt_payload_by_parity_witness :
    setup_ok env0 ∧
    adv_attempts (bt_srv_init defs0 env0 [Event.tick 0, Event.tick (-5), Event.tick 0]).1.calls =
      [ad_mcumgr defs0, ad_inet6 defs0, ad_mcumgr defs0] :=
  ⟨⟨rfl, rfl, rfl⟩,
   (attempt_payload_by_parity defs0 env0 ⟨rfl, rfl, rfl⟩ []).2.2.2.2.2.2.2.2.2.1 [0, -5, 0]⟩

/-! ## Return values -/

/-- C7: once the three checked setup stages have returned 0, `bt_srv_init` has not
returned after any list of events, so after any number of poll ticks, whatever
`bt_le_adv_start` returns on them and however connect/disconnect events are interleaved.
Every value `bt_srv_init` returns is a nonzero code returned by the first failing stage
among `settings_ot_init`, `gatt_inet6_init` and `bt_enable`, and is returned before any
sleep or advertising call; it never returns 0. -/
theorem returns_only_setup_errors (h : BtDefs) (env : Env) (evs : List Event) :
    (setup_ok env → (bt_srv_init h env evs).2 = none) ∧
    (setup_ok env → ∀ rets : List Int, (bt_srv_init h env (rets.map Event.tick)).2 = none) ∧
    (∀ e : Int, (bt_srv_init h env evs).2 = some e →
      e ≠ 0 ∧
      (e = env.settings_ot_init_ret ∨
        (env.settings_ot_init_ret = 0 ∧ e = env.gatt_inet6_init_ret) ∨
        (env.settings_ot_init_ret = 0 ∧ env.gatt_inet6_init_ret = 0 ∧
          e = env.bt_enable_ret)) ∧
      (∀ c ∈ (bt_srv_init h env evs).1.calls, c.is_adv = false ∧ ∀ ms, c ≠ Call.k_sleep ms)) ∧
    (bt_srv_init h env evs).2 ≠ some 0 := by
  refine ⟨?_, ?_, returned_value h env evs, ?_⟩
  · intro hok
    rw [bt_srv_init_ok h env hok, poll_loop_snd]
  · intro hok rets
    rw [bt_srv_init_ok h env hok, poll_loop_snd]
  · intro h0
    exact (returned_value h env evs 0 h0).1 rfl

/-- After a successful setup and four events, three of them ticks with failing starts,
the function has not returned. -/
theorem returns_only_setup_errors_witness :
    setup_ok env0 ∧
    (bt_srv_init defs0 env0
      [Event.tick (-5), Event.connected 3, Event.tick (-5), Event.tick (-12)]).2 = none :=
  ⟨⟨rfl, rfl, rfl⟩,
   (returns_only_setup_errors defs0 env0
      [Event.tick (-5), Event.connected 3, Event.tick (-5), Event.tick (-12)]).1 ⟨rfl, rfl, rfl⟩⟩

/-! ## The arguments of `bt_le_adv_start` -/

/-- C9: `advertise` passes `ARRAY_SIZE(ad_inet6)`, which is 2, as the payload length
whatever payload it is given.  Both `ad_inet6` and `ad_mcumgr` have exactly 2 elements:
a flags element whose single data byte is `BT_LE_AD_GENERAL | BT_LE_AD_NO_BREDR` and a
UUID128 element with 16 data bytes.  So in every run, every `bt_le_adv_start` call has
a length argument equal to the element count of its payload argument, its payload is
one of the two tables, and its scan response is `scan_resp_ot` with length 1. -/
theorem adv_start_length_matches_payload (h : BtDefs) (env : Env) (evs : List Event) :
    ARRAY_SIZE (ad_inet6 h) = 2 ∧ ARRAY_SIZE (ad_mcumgr h) = 2 ∧
    ARRAY_SIZE (scan_resp_ot h) = 1 ∧
    (ad_inet6 h).map (fun d => (d.type, d.data_len, d.data.length)) =
      [(h.BT_DATA_FLAGS % 256, 1, 1), (h.BT_DATA_UUID128_SOME % 256, 16, 16)] ∧
    (ad_mcumgr h).map (fun d => (d.type, d.data_len, d.data.length)) =
      [(h.BT_DATA_FLAGS % 256, 1, 1), (h.BT_DATA_UUID128_SOME % 256, 16, 16)] ∧
    (ad_inet6 h).head?.map bt_data.data =
      some [(h.BT_LE_AD_GENERAL ||| h.BT_LE_AD_NO_BREDR) % 256] ∧
    (ad_mcumgr h).head?.map bt_data.data =
      some [(h.BT_LE_AD_GENERAL ||| h.BT_LE_AD_NO_BREDR) % 256] ∧
    (∀ (adv : List bt_data) (ret : Int) (s : State),
      (advertise h adv ret s).calls = s.calls ++ [Call.bt_le_adv_stop,
        Call.bt_le_adv_start bt_le_adv_param.BT_LE_ADV_CONN_NAME adv
          (ARRAY_SIZE (ad_inet6 h)) (scan_resp_ot h) (ARRAY_SIZE (scan_resp_ot h)) ret]) ∧
    (∀ (p : bt_le_adv_param) (ad sd : List bt_data) (ad_len sd_len : Nat) (ret : Int),
      Call.bt_le_adv_start p ad ad_len sd sd_len ret ∈ (bt_srv_init h env evs).1.calls →
      ad_len = ARRAY_SIZE ad ∧ (ad = ad_inet6 h ∨ ad = ad_mcumgr h) ∧
        sd = scan_resp_ot h ∧ sd_len = 1 ∧ sd_len = ARRAY_SIZE sd) := by
  refine ⟨rfl, rfl, rfl, ?_, ?_, ?_, ?_, ?_, ?_⟩
  · simp [ad_inet6, BT_DATA_BYTES]
  · simp [ad_mcumgr, BT_DATA_BYTES]
  · simp [ad_inet6, BT_DATA_BYTES]
  · simp [ad_mcumgr, BT_DATA_BYTES]
  · intro adv ret s
    rw [advertise_calls]
    rfl
  · intro p ad sd ad_len sd_len ret hc
    exact run_start_ok h env evs _ hc

/-! ## The advertising state -/

/-- C6, as stated, fails.  Right after a successful setup `active_conn` is false and
nothing is on air; after one successful disconnected tick followed by a connect event
`active_conn` is true and the payload started by the tick is still on air; after a
disconnected tick whose start failed `active_conn` is false and nothing is on air. -/
theorem advertising_iff_disconnected_fails :
    ¬ (on_air (bt_srv_init defs0 env0 []).1.calls ≠ [] ↔
        (bt_srv_init defs0 env0 []).1.active_conn = false) ∧
    ¬ (on_air (bt_srv_init defs0 env0 [Event.tick 0, Event.connected 0]).1.calls ≠ [] ↔
        (bt_srv_init defs0 env0 [Event.tick 0, Event.connected 0]).1.active_conn = false) ∧
    ¬ (on_air (bt_srv_init defs0 env0 [Event.tick (-5)]).1.calls ≠ [] ↔
        (bt_srv_init defs0 env0 [Event.tick (-5)]).1.active_conn = false) := by
  decide

/-- C6, amended: in every state reachable from a successful setup by ticks and
connect/disconnect events, at most one payload is on air, and it is `ad_mcumgr` or
`ad_inet6`.  When the setup is done no advertising call has been made and nothing is on
air, and callbacks that arrive before the first tick make no call either.  A further tick
taken with `active_conn` false leaves on air exactly the payload selected by the cursor
when its `bt_le_adv_start` returns 0 and nothing when it does not, and `active_conn` is
still false after it; a tick taken with `active_conn` true and the two callbacks leave
the payloads on air unchanged. -/
theorem advertising_state (h : BtDefs) (env : Env) (hok : setup_ok env) (evs : List Event) :
    (on_air (bt_srv_init h env evs).1.calls).length ≤ 1 ∧
    (∀ p ∈ on_air (bt_srv_init h env evs).1.calls, p = ad_mcumgr h ∨ p = ad_inet6 h) ∧
    (∀ ret : Int, (bt_srv_init h env evs).1.active_conn = false →
      on_air (bt_srv_init h env (evs ++ [Event.tick ret])).1.calls =
        (if ret = 0 then
          [if (bt_srv_init h env evs).1.adv_bool then ad_inet6 h else ad_mcumgr h]
         else []) ∧
      (bt_srv_init h env (evs ++ [Event.tick ret])).1.active_conn = false) ∧
    (∀ ret : Int, (bt_srv_init h env evs).1.active_conn = true →
      on_air (bt_srv_init h env (evs ++ [Event.tick ret])).1.calls =
        on_air (bt_srv_init h env evs).1.calls) ∧
    (∀ err : Nat,
      on_air (bt_srv_init h env (evs ++ [Event.connected err])).1.calls =
        on_air (bt_srv_init h env evs).1.calls) ∧
    (∀ reason : Nat,
      on_air (bt_srv_init h env (evs ++ [Event.disconnected reason])).1.calls =
        on_air (bt_srv_init h env evs).1.calls) ∧
    on_air (bt_srv_init h env []).1.calls = [] ∧
    (bt_srv_init h env []).1.calls.filter Call.is_adv = [] ∧
    (bt_srv_init h env []).1.active_conn = false ∧
    (∀ cbs : List Event, (∀ e ∈ cbs, ∀ ret : Int, e ≠ Event.tick ret) →
      (bt_srv_init h env cbs).1.calls = (bt_srv_init h env []).1.calls ∧
      on_air (bt_srv_init h env cbs).1.calls = []) := by
  have hinv := poll_loop_on_air h evs (loop_entry env) (Or.inl (loop_entry_on_air env))
  simp only [bt_srv_init_ok h env hok, poll_loop_append]
  refine ⟨?_, ?_, ?_, ?_, ?_, ?_, loop_entry_on_air env, ?_, rfl, ?_⟩
  · rcases hinv with h0 | ⟨b, hb⟩
    · simp [h0]
    · simp [hb]
  · intro p hp
    rcases hinv with h0 | ⟨b, hb⟩
    · simp [h0] at hp
    · rw [hb] at hp
      cases b <;> simp [selected] at hp <;> simp [hp]
  · intro ret hc
    simp [poll_loop, on_air_loop_body, loop_body_active_conn, hc, selected]
  · intro ret hc
    simp [poll_loop, on_air_loop_body, hc]
  · intro err
    simp [poll_loop, connected_calls]
  · intro r
    simp [poll_loop, disconnected_calls]
  · cases hc : env.CONFIG_MCUMGR_CMD_IMG_MGMT <;> simp [poll_loop, loop_entry, hc, Call.is_adv]
  · intro cbs hcb
    rw [callbacks_keep_calls h cbs _ hcb]
    exact ⟨rfl, loop_entry_on_air env⟩

/-- After setup nothing is on air; one successful disconnected tick later exactly
`ad_mcumgr` is on air. -/
theorem advertising_state_witness :
    setup_ok env0 ∧ (bt_srv_init defs0 env0 []).1.active_conn = false ∧
    on_air (bt_srv_init defs0 env0 []).1.calls = [] ∧
    on_air (bt_srv_init defs0 env0 [Event.tick 0]).1.calls = [ad_mcumgr defs0] :=
  ⟨⟨rfl, rfl, rfl⟩, rfl,
   (advertising_state defs0 env0 ⟨rfl, rfl, rfl⟩ []).2.2.2.2.2.2.1,
   ((advertising_state defs0 env0 ⟨rfl, rfl, rfl⟩ []).2.2.1 0 rfl).1⟩

end BtSrv
